import Mathlib

/-!
# MUTS safe-operation core: a shallow embedding with proofs

This file embeds, in Lean 4, the parts of the MUTS rust-core that the
verified properties talk about, and proves (or refutes) each property.

Machine integers are modelled as `Nat` with explicit `% 2^w` wherever the
source's wrapping matters.  Byte sequences are `List Nat` (each element a
byte value).  Rust `f64` parameters that the properties compare exactly
(safety limits, telemetry values) are modelled as `ℚ`; the comparisons in
scope are exact and never exercise rounding.

Source files embedded (under `muts-desktop/rust-core/src/`):
* `flash.rs`            — `verify_checksum`, `FlashManager::prepare_flash`
* `event_bus.rs`        — `EventBus::send`
* `flash_supervisor.rs` — `handle_prepare` / `handle_start` / `handle_abort`
* `safety.rs`           — `SafetyState::arm`, `check_parameters`
* `hardware.rs`         — `connect_interface`
* `diagnostics.rs`      — `build_iso_tp_frames`, `wait_for_response`
-/

set_option maxRecDepth 100000

namespace Muts

/-! Section: CRC-32/ISO-HDLC, the `crc` crate's `CRC_32_ISO_HDLC`.

Reflected algorithm: init `0xFFFFFFFF`, polynomial `0xEDB88320`
(bit-reversed `0x04C11DB7`), final XOR `0xFFFFFFFF`. -/

/-- The bit-reversed CRC-32 polynomial. -/
def crcPoly : Nat := 0xEDB88320

/-- One bit step: if the LSB is set, shift right and XOR the polynomial,
else just shift right. -/
def crcBit (c : Nat) : Nat :=
  if c % 2 = 1 then (c / 2) ^^^ crcPoly else c / 2

/-- Eight bit steps over a 32-bit running value. -/
def crcBits : Nat → Nat → Nat
  | 0, c => c
  | n + 1, c => crcBits n (crcBit c)

/-- Fold one byte into the running CRC value. -/
def crcByte (c b : Nat) : Nat :=
  crcBits 8 (c ^^^ (b % 256))

/-- The full checksum `Crc::<u32>::new(&CRC_32_ISO_HDLC).checksum(data)`. -/
def crc32 (data : List Nat) : Nat :=
  (data.foldl crcByte 0xFFFFFFFF) ^^^ 0xFFFFFFFF

/-- Sanity: the CRC-32/ISO-HDLC check value for `"123456789"`. -/
example : crc32 [0x31, 0x32, 0x33, 0x34, 0x35, 0x36, 0x37, 0x38, 0x39]
    = 0xCBF43926 := by decide

/-- Sanity: the empty input checks to `0`. -/
example : crc32 [] = 0 := by decide

/-! Section: `flash.rs`, `verify_checksum`.

```rust
let crc = Crc::<u32>::new(&CRC_32_ISO_HDLC);
let calculated = crc.checksum(rom_data);          // over ALL of rom_data
let expected = if rom_data.len() >= 4 {
    u32::from_le_bytes([rom_data[len-4], .., rom_data[len-1]])
} else { 0 };
Ok(ChecksumResult { valid: calculated == expected, .. })
```
`FlashManager::verify_checksum` (flash.rs:115) and the free function
`verify_checksum` (flash.rs:405) are byte-for-byte the same computation. -/

structure ChecksumResult where
  valid : Bool
  calculated : Nat
  expected : Nat
deriving Repr, DecidableEq

/-- Value of `u32::from_le_bytes` of the four bytes of `rom` starting at `i`. -/
def leU32At (rom : List Nat) (i : Nat) : Nat :=
  rom.getD i 0 + 256 * rom.getD (i + 1) 0
    + 65536 * rom.getD (i + 2) 0 + 16777216 * rom.getD (i + 3) 0

/-- The `expected` value read by `verify_checksum`. -/
def expectedChecksum (rom : List Nat) : Nat :=
  if 4 ≤ rom.length then leU32At rom (rom.length - 4) else 0

/-- Function `verify_checksum` (flash.rs:405-426; identical body at flash.rs:115-138).
The CRC is computed over the whole of `rom`, trailing bytes included. -/
def verify_checksum (rom : List Nat) : ChecksumResult :=
  { valid := crc32 rom == expectedChecksum rom
    calculated := crc32 rom
    expected := expectedChecksum rom }

/-- What the specification says `verify_checksum` computes for `len ≥ 4`:
CRC over bytes `0..len-4` compared with the trailing little-endian u32. -/
def specChecksumValid (rom : List Nat) : Bool :=
  crc32 (rom.take (rom.length - 4)) == leU32At rom (rom.length - 4)

/-- C3: the claim says `valid = true` iff the CRC over bytes `0..len-4`
equals the trailing little-endian u32.  The code computes the CRC over the
*whole* buffer, checksum bytes included, so on the ROM `[0,0,0,0]` (whose
trailing u32 `0` is exactly the CRC of the empty preceding content) the
code reports `valid = false` while the claimed relation holds.  This
evaluates the embedded code at that failing input. -/
theorem verify_checksum_crc_over_whole_buffer :
    (verify_checksum [0, 0, 0, 0]).valid = false ∧
    specChecksumValid [0, 0, 0, 0] = true ∧
    (verify_checksum [0, 0, 0, 0]).calculated = 0x2144DF1C := by decide

/-- C10: `verify_checksum` is total (the embedding is a plain function on
all byte lists); for inputs shorter than 4 bytes the expected checksum is
`0`, so `valid` holds exactly when the CRC-32/ISO-HDLC of the entire input
is `0`. -/
theorem verify_checksum_short_input (rom : List Nat) (h : rom.length < 4) :
    (verify_checksum rom).expected = 0 ∧
    ((verify_checksum rom).valid = true ↔ crc32 rom = 0) := by
  have h4 : ¬ 4 ≤ rom.length := by omega
  refine ⟨?_, ?_⟩ <;> simp [verify_checksum, expectedChecksum, h4]

/-- Witness for `verify_checksum_short_input` at the empty input. -/
theorem verify_checksum_short_input_witness :
    ([] : List Nat).length < 4 ∧
    ((verify_checksum []).expected = 0 ∧
      ((verify_checksum []).valid = true ↔ crc32 [] = 0)) :=
  ⟨by decide, verify_checksum_short_input [] (by decide)⟩

/-! Section: `event_bus.rs`, `EventBus::send`, the P0 path.

```rust
Priority::P0Safety => {
    let safety_event = SafetyEvent { event: event.clone(), .. };
    self.persistence.store(&safety_event).await
        .map_err(|e| SendError::Persistence(e.to_string()))?;   // early return
    self.safety_tx.send(safety_event).map_err(|_| SendError::QueueFull)?;
    self.increment_metric("safety_events_sent").await;
}
```
The persistence backend is a trait object; its `store` may fail with any
`PersistenceError`.  We model the outcome of the one `store` call made by
`send` as an oracle `storeOk`, and likewise the liveness of the internal
safety channel (`safety_tx.send` fails only when the processor side is
gone) as `queueOpen`.  The broadcast channels of P1-P3 are modelled by a
subscriber count. -/

inductive Priority
  | P0Safety | P1Flash | P2Telemetry | P3Logs
deriving Repr, DecidableEq

structure Event where
  id : Nat
  priority : Priority
  eventType : String
  requiresAck : Bool
deriving Repr, DecidableEq

inductive SendError
  | QueueFull
  | NoSubscribers
  | Persistence (msg : String)
deriving Repr, DecidableEq

/-- The bus-side state `EventBus::send` can touch: what the persistence
backend holds, the internal safety queue, and the per-class counters. -/
structure BusState where
  persisted : List Nat := []
  safetyQueue : List Nat := []
  flashSubscribers : Nat := 0
  safetyEventsSent : Nat := 0
  flashEventsSent : Nat := 0
  telemetryEventsSent : Nat := 0
  telemetryDropped : Nat := 0
  logEventsSent : Nat := 0
  logDropped : Nat := 0
deriving Repr, DecidableEq

/-- Method `EventBus::send` (event_bus.rs:242-291) as a state transition.  The
returned `Option SendError` is `none` on success; every early `?` return
leaves the state reached so far, exactly as `&self` methods do. -/
def EventBus.send (storeOk queueOpen : Bool) (e : Event) (s : BusState) :
    BusState × Option SendError :=
  match e.priority with
  | .P0Safety =>
      if storeOk then
        let s1 := { s with persisted := s.persisted ++ [e.id] }
        if queueOpen then
          let s2 := { s1 with safetyQueue := s1.safetyQueue ++ [e.id] }
          ({ s2 with safetyEventsSent := s2.safetyEventsSent + 1 }, none)
        else (s1, some .QueueFull)
      else (s, some (.Persistence "store failed"))
  | .P1Flash =>
      if s.flashSubscribers = 0 then (s, some .NoSubscribers)
      else ({ s with flashEventsSent := s.flashEventsSent + 1 }, none)
  | .P2Telemetry =>
      ({ s with telemetryEventsSent := s.telemetryEventsSent + 1 }, none)
  | .P3Logs =>
      ({ s with logEventsSent := s.logEventsSent + 1 }, none)

/-- C1: for a P0-Safety event, `send` succeeds only with the event stored
by the persistence backend (and then also enqueued); if the store fails,
`send` returns a `Persistence` error and the state — persistence and
safety queue alike — is exactly what it was: the event is neither stored
nor enqueued, never silently dropped. -/
theorem event_bus_send_p0_persist_barrier
    (storeOk queueOpen : Bool) (e : Event) (s : BusState)
    (hp : e.priority = .P0Safety) :
    ((EventBus.send storeOk queueOpen e s).2 = none →
      e.id ∈ (EventBus.send storeOk queueOpen e s).1.persisted ∧
      e.id ∈ (EventBus.send storeOk queueOpen e s).1.safetyQueue) ∧
    (storeOk = false →
      (EventBus.send storeOk queueOpen e s).2 = some (.Persistence "store failed") ∧
      (EventBus.send storeOk queueOpen e s).1 = s) := by
  constructor
  · intro hok
    cases storeOk <;> cases queueOpen <;>
      simp_all [EventBus.send, hp]
  · intro hko
    subst hko
    simp [EventBus.send, hp]

/-- Witness for `event_bus_send_p0_persist_barrier`: a concrete P0 event
against a failing store. -/
theorem event_bus_send_p0_persist_barrier_witness :
    (Event.mk 7 .P0Safety "watchdog_timeout" true).priority = .P0Safety ∧
    ((EventBus.send false true (Event.mk 7 .P0Safety "watchdog_timeout" true) {}).2
        = some (.Persistence "store failed") ∧
      (EventBus.send false true (Event.mk 7 .P0Safety "watchdog_timeout" true) {}).1
        = {}) :=
  ⟨rfl, (event_bus_send_p0_persist_barrier false true
      (Event.mk 7 .P0Safety "watchdog_timeout" true) {} rfl).2 rfl⟩

/-! Section: `flash_supervisor.rs`, the command handlers.

The supervisor task owns a `HashMap<String, FlashJob>`; commands arrive on
a mailbox and are handled one at a time by `handle_command`.  We model the
job map as an insertion-ordered association list and each handler as a
pure state transition.  `Instant` timestamps, `f32` progress and the event
emissions are not consulted by any property in scope and are left out;
every field a property reads is kept. -/

inductive FlashState
  | Idle
  | Preparing
  | Ready
  | Flashing
  | Verifying
  | Completed
  | Failed (reason : String)
  | Aborted
deriving Repr, DecidableEq

structure SupJob where
  id : String
  state : FlashState
  romData : List Nat
  blocksCompleted : Nat
  totalBlocks : Nat
  abortHandle : Bool
deriving Repr, DecidableEq

/-- The supervisor's job map (`jobs: HashMap<String, FlashJob>`). -/
abbrev SupState := List SupJob

def lookupJob : SupState → String → Option SupJob
  | [], _ => none
  | j :: rest, jid => if j.id = jid then some j else lookupJob rest jid

def updateJob (f : SupJob → SupJob) : SupState → String → SupState
  | [], _ => []
  | j :: rest, jid =>
      if j.id = jid then f j :: rest else j :: updateJob f rest jid

/-- Computation `job.total_blocks = (job.rom_data.len() / 1024) as u32` — floor
division by the 1 KiB execution block size, then the `as u32` cast. -/
def startTotalBlocks (len : Nat) : Nat :=
  (len / 1024) % 2 ^ 32

/-- Handler `handle_prepare` (flash_supervisor.rs:217-258): refuse an existing id,
otherwise insert the job directly in state `Preparing` — no size or
checksum validation happens here. -/
def handle_prepare (jid : String) (rom : List Nat) (s : SupState) : SupState :=
  if (lookupJob s jid).isSome then s
  else s ++ [{ id := jid, state := .Preparing, romData := rom,
               blocksCompleted := 0, totalBlocks := 0, abortHandle := false }]

/-- Handler `handle_start` (flash_supervisor.rs:260-294): if the id resolves — in
*any* state — set `Flashing`, compute `total_blocks`, install the abort
handle and spawn the execution task.  Job missing: no change. -/
def handle_start (jid : String) (s : SupState) : SupState :=
  updateJob (fun j => { j with state := .Flashing,
                               totalBlocks := startTotalBlocks j.romData.length,
                               abortHandle := true }) s jid

/-- Handler `handle_abort` (flash_supervisor.rs:296-315 head): if the id resolves —
in *any* state — signal the abort handle and set `Aborted`.  Job missing:
no change. -/
def handle_abort (jid : String) (s : SupState) : SupState :=
  updateJob (fun j => { j with state := .Aborted }) s jid

inductive FlashCommand
  | prepare (jobId : String) (romData : List Nat)
  | start (jobId : String)
  | abort (jobId : String)
deriving Repr, DecidableEq

/-- Dispatcher `handle_command` (flash_supervisor.rs:190-215), restricted to the
state-changing commands (`GetStatus` only snapshots). -/
def handle_command (s : SupState) : FlashCommand → SupState
  | .prepare jid rom => handle_prepare jid rom s
  | .start jid => handle_start jid s
  | .abort jid => handle_abort jid s

/-- The supervisor loop: commands applied in mailbox order. -/
def runCommands (s : SupState) (cs : List FlashCommand) : SupState :=
  cs.foldl handle_command s

/-- Number of jobs currently in state `Flashing`. -/
def countFlashing (s : SupState) : Nat :=
  (s.filter (fun j => j.state == .Flashing)).length

/-- C2: the claim says at most one job can be in `Flashing` and that a
`Start` for a second job cannot take it to `Flashing` while the first is
still there.  `handle_start` performs no such check: after
`Prepare a; Start a; Prepare b; Start b` both jobs are in `Flashing`
simultaneously.  This evaluates the embedded handlers on that mailbox
sequence. -/
theorem flash_supervisor_two_jobs_flashing :
    (lookupJob (runCommands [] [.prepare "a" [], .start "a", .prepare "b" []])
        "a").map SupJob.state = some .Flashing ∧
    (lookupJob (runCommands []
        [.prepare "a" [], .start "a", .prepare "b" [], .start "b"])
        "b").map SupJob.state = some .Flashing ∧
    countFlashing (runCommands []
        [.prepare "a" [], .start "a", .prepare "b" [], .start "b"]) = 2 := by
  decide

/-- C6: the claim says every transition follows the §4.7 table — in
particular `Aborted` is reached only from `Flashing` and `Ready` only from
`Preparing`.  The code takes `Preparing → Aborted` directly: after
`Prepare j` the job is in `Preparing`, and `Abort j` immediately sets
`Aborted` (and `Start` would likewise take `Preparing → Flashing`,
skipping `Ready`, which no handler ever produces).  This evaluates the
embedded handlers on that mailbox sequence. -/
theorem flash_supervisor_abort_from_preparing :
    (lookupJob (runCommands [] [.prepare "j" []]) "j").map SupJob.state
        = some .Preparing ∧
    (lookupJob (runCommands [] [.prepare "j" [], .abort "j"]) "j").map
        SupJob.state = some .Aborted ∧
    (lookupJob (runCommands [] [.prepare "j" [], .start "j"]) "j").map
        SupJob.state = some .Flashing := by
  decide

/-! Section: `flash.rs`, the `FlashManager::prepare_flash` block estimate.

```rust
let block_size = 4096;
let total_blocks = (rom_data.len() as u32 + block_size - 1) / block_size;
```
u32 arithmetic: the `as u32` cast truncates and the `+ 4095` wraps. -/

/-- Count `blocks_to_write` as computed by `prepare_flash` (flash.rs:154-156). -/
def prepareBlocksToWrite (len : Nat) : Nat :=
  ((len % 2 ^ 32 + 4095) % 2 ^ 32) / 4096

/-- Updating a job and then looking it up yields the updated job, provided
the update preserves the id (all the supervisor's updates do). -/
theorem lookupJob_updateJob (f : SupJob → SupJob) (s : SupState) (jid : String)
    (hid : ∀ j, (f j).id = j.id) :
    lookupJob (updateJob f s jid) jid = (lookupJob s jid).map f := by
  induction s with
  | nil => rfl
  | cons j rest ih =>
      by_cases h : j.id = jid
      · simp [lookupJob, updateJob, h, hid]
      · simp [lookupJob, updateJob, h, ih]

/-- C9 counterexample: the claim says the execution block count set by
`Start` is `⌈len / 1024⌉`.  For a prepared 1-byte ROM, `Start` stores
`total_blocks = 0`, while `⌈1 / 1024⌉ = 1`. -/
theorem flash_block_count_floor_counterexample :
    (lookupJob (runCommands [] [.prepare "a" [0], .start "a"]) "a").map
        SupJob.totalBlocks = some 0 ∧
    (1 + 1023) / 1024 = 1 := by
  decide

/-- C9 (amended): `Start` stores the *floor* `len / 1024` as the execution
block count (so `1024 · tb ≤ len < 1024 · (tb + 1)`), while
`prepare_flash` estimates with the *ceiling* `⌈len / 4096⌉` (so
`len ≤ 4096 · pb < len + 4096`), for every ROM length in u32 range. -/
theorem flash_block_counts (s : SupState) (jid : String) (j : SupJob)
    (hj : lookupJob s jid = some j) (hlen : j.romData.length + 4095 < 2 ^ 32) :
    (∃ j', lookupJob (handle_start jid s) jid = some j' ∧
        j'.state = .Flashing ∧
        j'.totalBlocks = j.romData.length / 1024 ∧
        1024 * j'.totalBlocks ≤ j.romData.length ∧
        j.romData.length < 1024 * (j'.totalBlocks + 1)) ∧
    prepareBlocksToWrite j.romData.length = (j.romData.length + 4095) / 4096 ∧
    j.romData.length ≤ 4096 * prepareBlocksToWrite j.romData.length ∧
    4096 * prepareBlocksToWrite j.romData.length < j.romData.length + 4096 := by
  have hps : prepareBlocksToWrite j.romData.length
      = (j.romData.length + 4095) / 4096 := by
    unfold prepareBlocksToWrite
    omega
  have hlu : lookupJob (handle_start jid s) jid
      = some { j with state := FlashState.Flashing,
                      totalBlocks := startTotalBlocks j.romData.length,
                      abortHandle := true } := by
    unfold handle_start
    rw [lookupJob_updateJob
      (fun j => { j with state := FlashState.Flashing,
                         totalBlocks := startTotalBlocks j.romData.length,
                         abortHandle := true }) s jid (fun _ => rfl), hj]
    rfl
  refine ⟨⟨_, hlu, rfl, ?_, ?_, ?_⟩, hps, ?_, ?_⟩
  · simp only [startTotalBlocks]
    omega
  · simp only [startTotalBlocks]
    omega
  · simp only [startTotalBlocks]
    omega
  · rw [hps]; omega
  · rw [hps]; omega

/-- Witness for `flash_block_counts` at a single prepared 5-byte job. -/
theorem flash_block_counts_witness :
    lookupJob [{ id := "a", state := FlashState.Preparing,
                 romData := [1, 2, 3, 4, 5], blocksCompleted := 0,
                 totalBlocks := 0, abortHandle := false }] "a"
      = some { id := "a", state := FlashState.Preparing,
               romData := [1, 2, 3, 4, 5], blocksCompleted := 0,
               totalBlocks := 0, abortHandle := false } ∧
    ([1, 2, 3, 4, 5] : List Nat).length + 4095 < 2 ^ 32 ∧
    ((∃ j', lookupJob (handle_start "a"
          [{ id := "a", state := FlashState.Preparing,
             romData := [1, 2, 3, 4, 5], blocksCompleted := 0,
             totalBlocks := 0, abortHandle := false }]) "a" = some j' ∧
        j'.state = .Flashing ∧
        j'.totalBlocks = ([1, 2, 3, 4, 5] : List Nat).length / 1024 ∧
        1024 * j'.totalBlocks ≤ ([1, 2, 3, 4, 5] : List Nat).length ∧
        ([1, 2, 3, 4, 5] : List Nat).length < 1024 * (j'.totalBlocks + 1)) ∧
      prepareBlocksToWrite ([1, 2, 3, 4, 5] : List Nat).length
        = (([1, 2, 3, 4, 5] : List Nat).length + 4095) / 4096 ∧
      ([1, 2, 3, 4, 5] : List Nat).length
        ≤ 4096 * prepareBlocksToWrite ([1, 2, 3, 4, 5] : List Nat).length ∧
      4096 * prepareBlocksToWrite ([1, 2, 3, 4, 5] : List Nat).length
        < ([1, 2, 3, 4, 5] : List Nat).length + 4096) :=
  ⟨by decide, by decide,
    flash_block_counts
      [{ id := "a", state := FlashState.Preparing, romData := [1, 2, 3, 4, 5],
         blocksCompleted := 0, totalBlocks := 0, abortHandle := false }] "a"
      { id := "a", state := FlashState.Preparing, romData := [1, 2, 3, 4, 5],
        blocksCompleted := 0, totalBlocks := 0, abortHandle := false }
      (by decide) (by decide)⟩

/-! Section: `safety.rs`, arming state machine and parameter monitor.

`f64` limits and telemetry values are modelled as `ℚ`; all comparisons in
scope are exact.  `arm` returns the mutated state together with
`none` (success) or the error message string; the mutation performed by
`clear_expired_violations` on an error path is kept, as in the source. -/

inductive SafetyLevel
  | ReadOnly | Simulate | LiveApply | Flash
deriving Repr, DecidableEq

inductive ViolationSeverity
  | Critical | Warning
deriving Repr, DecidableEq

structure SafetyViolation where
  parameter : String
  value : ℚ
  limit : ℚ
  severity : ViolationSeverity
deriving Repr, DecidableEq

structure SafetyLimits where
  max_boost : ℚ
  max_timing_advance : ℚ
  max_fuel_pressure : ℚ
  max_rpm : ℚ
  min_afr : ℚ
  max_afr : ℚ
  max_iat : ℚ
  max_ect : ℚ
deriving Repr, DecidableEq

/-- Defaults `SafetyLimits::default()` (safety.rs:36-49). -/
def SafetyLimits.default : SafetyLimits :=
  { max_boost := 25, max_timing_advance := 35, max_fuel_pressure := 80,
    max_rpm := 7000, min_afr := 11, max_afr := 17, max_iat := 80,
    max_ect := 110 }

structure SafetyState where
  armed : Bool
  level : SafetyLevel
  armTimeSet : Bool
  violations : List SafetyViolation
  limits : SafetyLimits
  sessionTimeout : Nat
deriving Repr, DecidableEq

/-- Constructor `SafetyState::new()` (safety.rs:52-61). -/
def SafetyState.new : SafetyState :=
  { armed := false, level := .ReadOnly, armTimeSet := false,
    violations := [], limits := SafetyLimits.default, sessionTimeout := 300 }

/-- Method `clear_expired_violations` (safety.rs:208-214).  The retain predicate
is `now.signed_duration_since(Utc::now()).num_seconds() < 600`, i.e.
`0 < 600`: it keeps every violation, and we embed that computation as
written. -/
def clear_expired_violations (s : SafetyState) : SafetyState :=
  { s with violations := s.violations.filter (fun _ => decide ((0 : Int) < 600)) }

def has_violations (s : SafetyState) : Bool :=
  ¬ s.violations.isEmpty

def has_critical_violations (s : SafetyState) : Bool :=
  s.violations.any (fun v => v.severity == .Critical)

/-- Method `is_safe_to_flash` (safety.rs:224-228): `true // Simplified`. -/
def is_safe_to_flash (_ : SafetyState) : Bool :=
  true

/-- Method `SafetyState::arm` (safety.rs:63-109).  Returns the mutated state and
`none` for `Ok(())` or the error message for `Err(..)`. -/
def arm (s : SafetyState) (level : SafetyLevel) : SafetyState × Option String :=
  match level with
  | .ReadOnly =>
      ({ s with armed := true, level := level, armTimeSet := true }, none)
  | .Simulate =>
      let s' := clear_expired_violations s
      if ¬ has_critical_violations s' then
        ({ s' with armed := true, level := level, armTimeSet := true }, none)
      else (s', some "Cannot arm: Critical safety violations present")
  | .LiveApply =>
      let s' := clear_expired_violations s
      if ¬ has_violations s' then
        ({ s' with armed := true, level := level, armTimeSet := true }, none)
      else (s', some "Cannot arm: Safety violations present")
  | .Flash =>
      let s' := clear_expired_violations s
      if ¬ has_violations s' ∧ is_safe_to_flash s' then
        ({ s' with armed := true, level := level, armTimeSet := true }, none)
      else (s', some "Cannot arm: Conditions not safe for flashing")

/-- First value bound to a parameter name (`params.get(..)` on the map). -/
def getParam (params : List (String × ℚ)) (k : String) : Option ℚ :=
  (params.find? (fun p => p.1 == k)).map (fun p => p.2)

/-- Method `check_parameters` (safety.rs:132-206): each monitored parameter is
compared against its limit in source order; breaches are appended to the
state's violation list and also returned. -/
def check_parameters (s : SafetyState) (params : List (String × ℚ)) :
    SafetyState × List SafetyViolation :=
  let vBoost := match getParam params "boost_pressure" with
    | some boost =>
        if s.limits.max_boost < boost then
          [⟨"boost_pressure", boost, s.limits.max_boost, .Critical⟩] else []
    | none => []
  let vTiming := match getParam params "ignition_timing" with
    | some timing =>
        if s.limits.max_timing_advance < timing then
          [⟨"ignition_timing", timing, s.limits.max_timing_advance, .Critical⟩]
        else []
    | none => []
  let vRpm := match getParam params "engine_rpm" with
    | some rpm =>
        if s.limits.max_rpm < rpm then
          [⟨"engine_rpm", rpm, s.limits.max_rpm, .Critical⟩] else []
    | none => []
  let vAfr := match getParam params "lambda" with
    | some afr =>
        if afr < s.limits.min_afr ∨ s.limits.max_afr < afr then
          [⟨"lambda", afr,
            if afr < s.limits.min_afr then s.limits.min_afr else s.limits.max_afr,
            .Warning⟩]
        else []
    | none => []
  let vIat := match getParam params "iat" with
    | some iat =>
        if s.limits.max_iat < iat then
          [⟨"iat", iat, s.limits.max_iat, .Warning⟩] else []
    | none => []
  let vEct := match getParam params "ect" with
    | some ect =>
        if s.limits.max_ect < ect then
          [⟨"ect", ect, s.limits.max_ect, .Critical⟩] else []
    | none => []
  let newViolations := vBoost ++ vTiming ++ vRpm ++ vAfr ++ vIat ++ vEct
  ({ s with violations := s.violations ++ newViolations }, newViolations)

/-- C5 counterexample: after `check_parameters` records `engine_rpm = 8000`
against `max_rpm = 7000` (a Critical violation), `arm(Flash)` fails with
the message `Cannot arm: Conditions not safe for flashing` — not the
claimed `Cannot arm: Critical safety violations present`, which the code
only produces for the `Simulate` level. -/
theorem arm_flash_message_counterexample :
    has_critical_violations
        ((check_parameters SafetyState.new [("engine_rpm", 8000)]).1) = true ∧
    (arm ((check_parameters SafetyState.new [("engine_rpm", 8000)]).1)
        .Flash).2 = some "Cannot arm: Conditions not safe for flashing" ∧
    ¬ (arm ((check_parameters SafetyState.new [("engine_rpm", 8000)]).1)
        .Flash).2 = some "Cannot arm: Critical safety violations present" := by
  decide

theorem has_critical_imp_has_violations (s : SafetyState)
    (h : has_critical_violations s = true) : has_violations s = true := by
  unfold has_critical_violations at h
  unfold has_violations
  cases hv : s.violations with
  | nil => rw [hv] at h; simp at h
  | cons v rest => simp [hv]

/-- C5 (amended): whenever the (never-expiring) violation list holds a
Critical violation — for example `engine_rpm` above `max_rpm`, which
`check_parameters` records as Critical — `arm(Flash)` fails with the
message `Cannot arm: Conditions not safe for flashing`, while
`arm(ReadOnly)` still succeeds and arms at level `ReadOnly`. -/
theorem arm_flash_blocked_by_critical_violation (s : SafetyState)
    (hc : has_critical_violations (clear_expired_violations s) = true) :
    ((arm s .Flash).2 = some "Cannot arm: Conditions not safe for flashing" ∧
      (arm s .ReadOnly).2 = none ∧
      (arm s .ReadOnly).1.armed = true ∧
      (arm s .ReadOnly).1.level = .ReadOnly) ∧
    ∀ (s₀ : SafetyState) (params : List (String × ℚ)) (rpm : ℚ),
      getParam params "engine_rpm" = some rpm → s₀.limits.max_rpm < rpm →
      has_critical_violations ((check_parameters s₀ params).1) = true := by
  constructor
  · have hv := has_critical_imp_has_violations _ hc
    refine ⟨?_, rfl, rfl, rfl⟩
    simp [arm, hv]
  · intro s₀ params rpm hget hlt
    simp only [check_parameters, has_critical_violations, hget, if_pos hlt]
    simp

/-- Witness for `arm_flash_blocked_by_critical_violation` at the state
produced by recording `engine_rpm = 8000` on a fresh safety state. -/
theorem arm_flash_blocked_by_critical_violation_witness :
    has_critical_violations (clear_expired_violations
        ((check_parameters SafetyState.new [("engine_rpm", 8000)]).1)) = true ∧
    (((arm ((check_parameters SafetyState.new [("engine_rpm", 8000)]).1)
          .Flash).2 = some "Cannot arm: Conditions not safe for flashing" ∧
        (arm ((check_parameters SafetyState.new [("engine_rpm", 8000)]).1)
          .ReadOnly).2 = none ∧
        (arm ((check_parameters SafetyState.new [("engine_rpm", 8000)]).1)
          .ReadOnly).1.armed = true ∧
        (arm ((check_parameters SafetyState.new [("engine_rpm", 8000)]).1)
          .ReadOnly).1.level = .ReadOnly) ∧
      ∀ (s₀ : SafetyState) (params : List (String × ℚ)) (rpm : ℚ),
        getParam params "engine_rpm" = some rpm → s₀.limits.max_rpm < rpm →
        has_critical_violations ((check_parameters s₀ params).1) = true) :=
  ⟨by decide,
    arm_flash_blocked_by_critical_violation
      ((check_parameters SafetyState.new [("engine_rpm", 8000)]).1) (by decide)⟩

/-! Section: `hardware.rs`, `connect_interface`.

```rust
if interface_id.starts_with("mock:") {
    let operator_mode = std::env::var("OPERATOR_MODE")
        .unwrap_or_else(|_| "dev".to_string());
    if operator_mode != "dev" {
        return Err("Mock interface only available in DEV mode".into());
    }
    ...connect mock, Ok(handle)...
}
Err(format!("Unknown interface type: {}", interface_id).into())
```
The `socketcan:`/`j2534:` branches are behind cargo features and do not
touch `OPERATOR_MODE`; the always-compiled path is the one above.  The
environment lookup is the function's only input besides the id, passed
here as `envOperatorMode` (`none` = variable unset). -/

/-- Rust's `str::starts_with` on UTF-8 strings, as a character-list check. -/
def startsWithStr (s p : String) : Bool :=
  p.data.isPrefixOf s.data

def connect_interface (envOperatorMode : Option String) (interfaceId : String) :
    Except String Unit :=
  if startsWithStr interfaceId "mock:" then
    let operatorMode := envOperatorMode.getD "dev"
    if operatorMode ≠ "dev" then
      Except.error "Mock interface only available in DEV mode"
    else Except.ok ()
  else Except.error ("Unknown interface type: " ++ interfaceId)

/-- C8 counterexample: with `OPERATOR_MODE` unset the claim demands
rejection, but the code defaults the mode to `"dev"` and accepts
`mock:0`. -/
theorem connect_mock_unset_env_counterexample :
    connect_interface none "mock:0" = Except.ok () ∧
    (none : Option String) ≠ some "dev" := by
  constructor
  · rfl
  · simp

/-- C8 (amended): a `mock:*` id is accepted iff `OPERATOR_MODE` is unset
or equals `dev` (unset defaults to `dev`); any other value is rejected
with an error. -/
theorem connect_mock_gate (envOp : Option String) (iid : String)
    (h : startsWithStr iid "mock:" = true) :
    connect_interface envOp iid = Except.ok () ↔
      (envOp = none ∨ envOp = some "dev") := by
  unfold connect_interface
  rw [if_pos h]
  cases envOp with
  | none => simp
  | some m =>
      by_cases hm : m = "dev" <;> simp [hm, Option.getD]

/-- Witness for `connect_mock_gate`: `mock:0` under `OPERATOR_MODE=prod`. -/
theorem connect_mock_gate_witness :
    startsWithStr "mock:0" "mock:" = true ∧
    (connect_interface (some "prod") "mock:0" = Except.ok () ↔
      ((some "prod" : Option String) = none ∨
        (some "prod" : Option String) = some "dev")) :=
  ⟨by decide, connect_mock_gate (some "prod") "mock:0" (by decide)⟩

/-! Section: `diagnostics.rs`, ISO-TP segmentation and reassembly.

`build_iso_tp_frames` (diagnostics.rs:116-160) chunks an outbound message;
`wait_for_response` (diagnostics.rs:163-205) reassembles the inbound
response.  The interface's successive `receive_frame` results are modelled
as a list of frames delivered in order.  Exhausting the list inside the
*outer* loop corresponds to the 2 s response timeout
(`Err("Timeout waiting for response")`).  The *inner* consecutive-frame
loop of the source checks no deadline at all, so exhausting the list there
leaves the source spinning forever; that outcome is `hang`. -/

structure CanFrame where
  id : Nat
  data : List Nat
deriving Repr, DecidableEq

/-- Chunking `message[6..].chunks(7)`: maximal runs of 7 bytes, last chunk
possibly shorter. -/
def chunks7 : List Nat → List (List Nat)
  | [] => []
  | [a] => [[a]]
  | [a, b] => [[a, b]]
  | [a, b, c] => [[a, b, c]]
  | [a, b, c, d] => [[a, b, c, d]]
  | [a, b, c, d, e] => [[a, b, c, d, e]]
  | [a, b, c, d, e, f] => [[a, b, c, d, e, f]]
  | a :: b :: c :: d :: e :: f :: g :: rest =>
      [a, b, c, d, e, f, g] :: chunks7 rest

/-- The consecutive-frame loop of `build_iso_tp_frames`: sequence counter
starts at `1` and the sent nibble is `sequence & 0x0F`. -/
def consecutiveFrames (seq : Nat) : List (List Nat) → List CanFrame
  | [] => []
  | chunk :: rest =>
      { id := 0x7E0, data := (0x20 ||| (seq &&& 0x0F)) :: chunk }
        :: consecutiveFrames (seq + 1) rest

/-- Function `build_iso_tp_frames` (diagnostics.rs:116-160). -/
def build_iso_tp_frames (message : List Nat) : List CanFrame :=
  if message.length ≤ 7 then
    [{ id := 0x7E0, data := message.length :: message }]
  else
    { id := 0x7E0,
      data := (0x10 ||| ((message.length >>> 8) &&& 0x0F))
        :: (message.length % 256) :: message.take 6 }
      :: consecutiveFrames 1 (chunks7 (message.drop 6))

/-- Outcome of `wait_for_response` on a finite delivery. -/
inductive RecvOutcome
  | ok (payload : List Nat)
  | timeout
  | hang
deriving Repr, DecidableEq

/-- Receiver position inside `wait_for_response`: the outer
`while start.elapsed() < timeout` loop, or the inner
`while response.len() < length` consecutive-frame loop with its running
reassembly buffer and expected sequence counter (the source's `sequence`
only ever grows by matches against a 4-bit nibble, so it never exceeds
`16` and the `u8` arithmetic never wraps). -/
inductive RxState
  | awaiting
  | collecting (length : Nat) (resp : List Nat) (seq : Nat)
deriving Repr, DecidableEq

/-- The `while response.len() < length` exit check of the source,
performed each time before another frame is awaited: a complete response
is matched against the expected service (`Ok(response[1..])` on success,
otherwise fall back to the outer loop); an incomplete one keeps
collecting. -/
def finishOrCollect (expectedService length : Nat) (resp : List Nat)
    (seq : Nat) : RxState ⊕ (Option (List Nat)) :=
  if length ≤ resp.length then
    match resp with
    | r0 :: rtail =>
        if r0 = expectedService then Sum.inr (some rtail) else Sum.inr none
    | [] => Sum.inr none
  else Sum.inl (.collecting length resp seq)

/-- Function `wait_for_response` (diagnostics.rs:163-205) over a finite delivery of
frames, one `receive_frame` result per list element.  Frame ids other than
`0x7E8` and empty payloads are skipped.  In the outer loop a single-frame
response is recognized when byte 1 equals the expected service, and a
first frame seeds the inner loop (the source reads `frame.data[1]`
unconditionally — modelled with `getD`; the properties in scope never
deliver a one-byte first frame).  In the inner loop a consecutive frame
is accumulated only when its low nibble equals the sequence counter and is
silently skipped otherwise.  Running out of frames in the outer loop is
the source's 2 s `Timeout`; running out inside the inner loop — which
checks no deadline — leaves the source spinning forever: `hang`. -/
def processFrames (expectedService : Nat) (st : RxState) :
    List CanFrame → RecvOutcome
  | [] =>
      match st with
      | .awaiting => .timeout
      | .collecting _ _ _ => .hang
  | f :: rest =>
      match st with
      | .awaiting =>
          if f.id = 0x7E8 ∧ f.data ≠ [] then
            let firstByte := f.data.headD 0
            if firstByte &&& 0xF0 = 0x00 then
              match f.data with
              | _ :: second :: tail =>
                  if second = expectedService then .ok tail
                  else processFrames expectedService .awaiting rest
              | _ => processFrames expectedService .awaiting rest
            else if firstByte &&& 0xF0 = 0x10 then
              let length := ((firstByte &&& 0x0F) <<< 8) ||| f.data.getD 1 0
              match finishOrCollect expectedService length (f.data.drop 2) 1 with
              | Sum.inr (some payload) => .ok payload
              | Sum.inr none => processFrames expectedService .awaiting rest
              | Sum.inl st' => processFrames expectedService st' rest
            else processFrames expectedService .awaiting rest
          else processFrames expectedService .awaiting rest
      | .collecting length resp seq =>
          if f.id = 0x7E8 ∧ f.data ≠ [] then
            let seqByte := f.data.headD 0
            if seqByte &&& 0xF0 = 0x20 ∧ seqByte &&& 0x0F = seq then
              match finishOrCollect expectedService length
                  (resp ++ f.data.drop 1) (seq + 1) with
              | Sum.inr (some payload) => .ok payload
              | Sum.inr none => processFrames expectedService .awaiting rest
              | Sum.inl st' => processFrames expectedService st' rest
            else processFrames expectedService (.collecting length resp seq) rest
          else processFrames expectedService (.collecting length resp seq) rest

/-- Entry point: `wait_for_response` starts in the outer loop. -/
def wait_for_response (expectedService : Nat) (frames : List CanFrame) :
    RecvOutcome :=
  processFrames expectedService .awaiting frames

/-- Frames as the ECU would echo them back on the response id `0x7E8`. -/
def toResponseFrames (frames : List CanFrame) : List CanFrame :=
  frames.map (fun f => { f with id := 0x7E8 })

/-- C4: the claim says segment-then-reassemble restores every message of
length 1..4095 and that an out-of-sequence Consecutive Frame fails with
`ProtocolError`.  The sender wraps its sequence nibble (`seq & 0x0F`) but
the receiver compares the nibble against an *unwrapped* counter, so the
16th Consecutive Frame of a 112-byte message never matches and the inner
loop — which checks no deadline — spins forever (`hang`).  A 111-byte
message (15 Consecutive Frames) still round-trips.  An out-of-sequence
frame is silently skipped, after which the loop likewise starves: no
`ProtocolError` exists anywhere in the engine.  This evaluates the
embedded segmenter and reassembler at those failing inputs. -/
theorem iso_tp_reassembly_failures :
    (0x62 :: List.replicate 111 7).length = 112 ∧
    wait_for_response 0x62
        (toResponseFrames (build_iso_tp_frames (0x62 :: List.replicate 111 7)))
      = .hang ∧
    wait_for_response 0x62
        (toResponseFrames (build_iso_tp_frames (0x62 :: List.replicate 110 7)))
      = .ok (List.replicate 110 7) ∧
    wait_for_response 0x62
        [{ id := 0x7E8, data := [0x10, 0x14, 0x62, 1, 2, 3, 4, 5] },
         { id := 0x7E8, data := [0x22, 9, 9, 9, 9, 9, 9, 9] }] = .hang := by
  decide

/-- C7 counterexample: for request service `0x22` the ECU's negative
response `[0x03, 0x7F, 0x22, 0x31]` does not fail with
`NegativeResponse(0x31)` — the engine has no negative-response handling at
all (witness the outcome type of the embedded `wait_for_response`): the
frame's byte 1 (`0x7F`) differs from `0x62`, so it is skipped and the
request ends in the generic 2 s `Timeout`. -/
theorem negative_response_times_out_counterexample :
    wait_for_response ((0x22 + 0x40) % 256)
      [{ id := 0x7E8, data := [0x03, 0x7F, 0x22, 0x31] }] = .timeout := by
  decide

/-- C7 (amended): `wait_for_response` recognizes a single-frame response
exactly when byte 1 equals the expected service `s + 0x40`; any delivery
consisting only of single-frame responses whose service byte differs —
negative responses `[0x7F, s, nrc]` included — is skipped frame by frame
until the request fails with `Timeout`, not with a `NegativeResponse`
outcome (which the engine does not have). -/
theorem send_request_response_recognition :
    (∀ (s : Nat) (frames : List CanFrame),
      (∀ f ∈ frames, f.id = 0x7E8 ∧ 2 ≤ f.data.length ∧
        f.data.headD 0 &&& 0xF0 = 0 ∧ f.data.getD 1 0 ≠ (s + 0x40) % 256) →
      wait_for_response ((s + 0x40) % 256) frames = .timeout) ∧
    (∀ (s l : Nat) (tail : List Nat) (rest : List CanFrame),
      l &&& 0xF0 = 0 →
      wait_for_response ((s + 0x40) % 256)
        ({ id := 0x7E8, data := l :: (s + 0x40) % 256 :: tail } :: rest)
        = .ok tail) := by
  constructor
  · intro s frames h
    show processFrames ((s + 0x40) % 256) .awaiting frames = .timeout
    induction frames with
    | nil => rfl
    | cons f rest ih =>
        obtain ⟨hid, hlen, hhead, hsecond⟩ := h f (List.mem_cons_self f rest)
        have hrest := fun g hg => h g (List.mem_cons_of_mem f hg)
        obtain ⟨fid, fdata⟩ := f
        cases fdata with
        | nil => simp at hlen
        | cons a t =>
            cases t with
            | nil => simp at hlen
            | cons b tail =>
                simp only [List.headD_cons, List.getD_cons_succ,
                  List.getD_cons_zero] at hhead hsecond
                simp only at hid
                simp [processFrames, hid, hhead, hsecond]
                exact ih hrest
  · intro s l tail rest hl
    simp [wait_for_response, processFrames, hl]

/-- Witness for `send_request_response_recognition`: service `0x22`; a
negative-response delivery that times out, and a positive single frame
`[0x0A, 0x62, 0xF1]` that is recognized. -/
theorem send_request_response_recognition_witness :
    (∀ f ∈ [CanFrame.mk 0x7E8 [0x03, 0x7F, 0x22, 0x31]],
      f.id = 0x7E8 ∧ 2 ≤ f.data.length ∧
      f.data.headD 0 &&& 0xF0 = 0 ∧ f.data.getD 1 0 ≠ (0x22 + 0x40) % 256) ∧
    (0x0A : Nat) &&& 0xF0 = 0 ∧
    wait_for_response ((0x22 + 0x40) % 256)
      [CanFrame.mk 0x7E8 [0x03, 0x7F, 0x22, 0x31]] = .timeout ∧
    wait_for_response ((0x22 + 0x40) % 256)
      [{ id := 0x7E8, data := 0x0A :: (0x22 + 0x40) % 256 :: [0xF1] }]
      = .ok [0xF1] :=
  ⟨by decide, by decide,
    send_request_response_recognition.1 0x22
      [CanFrame.mk 0x7E8 [0x03, 0x7F, 0x22, 0x31]] (by decide),
    send_request_response_recognition.2 0x22 0x0A [0xF1] [] (by decide)⟩

end Muts
